import Mathlib

/-!
Verification of the LinkMasterX move-link-revert engine (`src/main.py`).

The engine manipulates two pieces of durable state:

* the host filesystem, which the Python code touches through
  `os.path.exists` / `os.path.isdir` / `os.path.islink`, `os.makedirs`,
  `shutil.move`, `os.unlink` and `mklink`;
* the history ledger `symlink_history.json`, read and written through
  `json.load` / `json.dump`.

The shallow embedding models the filesystem as a finite association list
from path strings to nodes.  Paths are treated as atomic names: the
hierarchy is not modelled (so `os.makedirs`' creation of intermediate
directories collapses to creating the named entry), but the aspects the
claims depend on — symbolic-link resolution performed by `os.path.exists`
and `os.path.isdir`, the distinction between a link entry and its target,
and `shutil.move`'s documented special cases — are represented.

The ledger file is modelled as a separate store holding a parsed JSON
value: `json.dump`/`json.load` are Python stdlib, not repository code, so
they are trusted as an inverse pair at the JSON-value level (the store
remembers the value that was dumped; loading returns it).  A store that is
absent, or that exists but cannot be read or parsed, is represented by
dedicated constructors.
-/

/-- A filesystem node.  `file data` is a regular file with identifying
content `data` (so that "the same item" is expressible); `dir` is a
directory; `symlink target dirFlavor` is a symbolic link to `target`,
created as a directory-type link when `dirFlavor` is `true` (the flavor
`mklink /d` gives it). -/
inductive Node
  | file (data : String)
  | dir
  | symlink (target : String) (dirFlavor : Bool)
deriving DecidableEq, Repr

/-- The filesystem: a finite map from path strings to nodes, as an
association list (first binding wins). -/
def FS := List (String × Node)
deriving DecidableEq, Repr

/-- Raw directory-entry lookup (no symlink following). -/
def fs_lookup : FS → String → Option Node
  | [], _ => none
  | (q, n) :: rest, p => if q = p then some n else fs_lookup rest p

/-- Remove every binding of path `p` (a map deletion; `os.unlink`). -/
def fs_remove : FS → String → FS
  | [], _ => []
  | (q, n) :: rest, p =>
    if q = p then fs_remove rest p else (q, n) :: fs_remove rest p

/-- Create or replace the entry at path `p`. -/
def fs_insert (fs : FS) (p : String) (n : Node) : FS :=
  (p, n) :: fs_remove fs p

/-- Whether a directory entry is present at `p`, without following links
(`os.path.lexists`; the empty path never exists, as in Python). -/
def path_lexists (fs : FS) (p : String) : Bool :=
  if p = "" then false else (fs_lookup fs p).isSome

/-- Resolve the node a path refers to, following symbolic links, with
fuel bounding the chain length.  Exhausted fuel means a link cycle, which
`os.path.exists` reports as non-existence (`ELOOP` is swallowed). -/
def resolveNode (fs : FS) : Nat → String → Option Node
  | 0, _ => none
  | fuel + 1, p =>
    if p = "" then none
    else
      match fs_lookup fs p with
      | some (Node.symlink t _) => resolveNode fs fuel t
      | r => r

/-- `os.path.exists`: follows symbolic links, so a dangling link does not
"exist"; `exists("")` is `False`. -/
def path_exists (fs : FS) (p : String) : Bool :=
  (resolveNode fs (fs.length + 1) p).isSome

/-- `os.path.isdir`: follows symbolic links. -/
def path_isdir (fs : FS) (p : String) : Bool :=
  decide (resolveNode fs (fs.length + 1) p = some Node.dir)

/-- `os.path.islink`: true exactly for a symbolic-link directory entry,
dangling or not. -/
def path_islink (fs : FS) (p : String) : Bool :=
  if p = "" then false
  else
    match fs_lookup fs p with
    | some (Node.symlink _ _) => true
    | _ => false

/-- A JSON value, as `json.load` would return it (numbers restricted to
integers; the claims never depend on float fidelity). -/
inductive Json
  | null
  | bool (b : Bool)
  | num (n : Int)
  | str (s : String)
  | arr (elems : List Json)
  | obj (fields : List (String × Json))

/-- An operation record, the unit of persisted ledger state
(spec section 3). -/
structure OpRecord where
  original_src : String
  final_dst : String
  symlink_path : String
deriving DecidableEq, Repr

/-- The on-disk ledger store: absent (no `symlink_history.json`), present
but unreadable or unparseable, or holding a parsed JSON value. -/
inductive Store
  | absent
  | malformed
  | content (j : Json)

/-- `load_history` (src/main.py:25): returns `[]` when the file is absent;
returns `[]` when opening or parsing raises (bare `except`); otherwise
returns whatever JSON value the file holds — the result is **not**
validated to be a list of records. -/
def load_history : Store → Json
  | Store.absent => Json.arr []
  | Store.malformed => Json.arr []
  | Store.content j => j

/-- `save_history` (src/main.py:38): overwrites the store with the dump of
the given value. -/
def save_history (j : Json) : Store :=
  Store.content j

/-- The JSON object `run_symlink_process` builds for a record
(src/main.py:289, field order preserved). -/
def recordToJson (r : OpRecord) : Json :=
  Json.obj [("original_src", Json.str r.original_src),
            ("final_dst", Json.str r.final_dst),
            ("symlink_path", Json.str r.symlink_path)]

/-- A whole ledger as the JSON list `json.dump` serializes. -/
def recordsToJson (l : List OpRecord) : Json :=
  Json.arr (l.map recordToJson)

/-- Recognize the JSON shape of one operation record. -/
def jsonToRecord : Json → Option OpRecord
  | Json.obj (("original_src", Json.str a) ::
              ("final_dst", Json.str b) ::
              ("symlink_path", Json.str c) :: []) => some ⟨a, b, c⟩
  | _ => none

/-- Decode a list of JSON values as operation records. -/
def recordsFromList : List Json → Option (List OpRecord)
  | [] => some []
  | j :: rest =>
    match jsonToRecord j, recordsFromList rest with
    | some r, some rs => some (r :: rs)
    | _, _ => none

/-- Recognize a JSON value as a sequence of operation records. -/
def jsonToRecords : Json → Option (List OpRecord)
  | Json.arr xs => recordsFromList xs
  | _ => none

/-- The record sequence a fresh `load_history()` call yields (empty when
the stored value is not a record sequence). -/
def loadAsRecords (s : Store) : List OpRecord :=
  (jsonToRecords (load_history s)).getD []

-- Basic association-list lemmas.

theorem fs_lookup_remove (fs : FS) (p q : String) :
    fs_lookup (fs_remove fs p) q = if q = p then none else fs_lookup fs q := by
  induction fs with
  | nil => simp [fs_remove, fs_lookup]
  | cons e rest ih =>
    obtain ⟨a, n⟩ := e
    by_cases hap : a = p
    · subst hap
      by_cases hqa : q = a
      · subst hqa
        simpa [fs_remove, fs_lookup] using ih
      · have haq : ¬ a = q := fun h => hqa h.symm
        simp [fs_remove, fs_lookup, ih, hqa, haq]
    · by_cases haq : a = q
      · subst haq
        have hqp : ¬ a = p := hap
        simp [fs_remove, fs_lookup, hap, hqp]
      · simp [fs_remove, fs_lookup, hap, haq, ih]

theorem fs_lookup_insert (fs : FS) (p q : String) (n : Node) :
    fs_lookup (fs_insert fs p n) q = if q = p then some n else fs_lookup fs q := by
  by_cases hqp : q = p
  · subst hqp
    simp [fs_insert, fs_lookup]
  · have hpq : ¬ p = q := fun h => hqp h.symm
    simp [fs_insert, fs_lookup, fs_lookup_remove, hqp, hpq]

theorem fs_lookup_insert_self (fs : FS) (p : String) (n : Node) :
    fs_lookup (fs_insert fs p n) p = some n := by
  simp [fs_lookup_insert]

theorem fs_lookup_remove_self (fs : FS) (p : String) :
    fs_lookup (fs_remove fs p) p = none := by
  simp [fs_lookup_remove]

-- Record serialization round-trip lemmas.

theorem jsonToRecord_recordToJson (r : OpRecord) :
    jsonToRecord (recordToJson r) = some r := rfl

theorem recordsFromList_map (l : List OpRecord) :
    recordsFromList (l.map recordToJson) = some l := by
  induction l with
  | nil => rfl
  | cons r rest ih => simp [recordsFromList, jsonToRecord_recordToJson, ih]

theorem jsonToRecords_recordsToJson (l : List OpRecord) :
    jsonToRecords (recordsToJson l) = some l := by
  simp [jsonToRecords, recordsToJson, recordsFromList_map]

theorem loadAsRecords_content (l : List OpRecord) :
    loadAsRecords (Store.content (recordsToJson l)) = l := by
  simp [loadAsRecords, load_history, jsonToRecords_recordsToJson]

-- Path-string arithmetic (`os.path` on Windows, simplified: drive-letter
-- splitting and absolute-path replacement in `join` are approximated;
-- only separator handling is modelled, which is all the code exercises).

/-- Is this character a Windows path separator (`\` or `/`)? -/
def isSlash (c : Char) : Bool :=
  c = '\\' || c = '/'

/-- Python's `s.rstrip("\\/")`: drop trailing separators. -/
def rstripSlashes (s : String) : String :=
  String.mk ((s.toList.reverse.dropWhile isSlash).reverse)

/-- `os.path.basename`: everything after the last separator. -/
def pyBasename (s : String) : String :=
  String.mk ((s.toList.reverse.takeWhile (fun c => !(isSlash c))).reverse)

/-- The base name `move_item` computes: `os.path.basename(src.rstrip("\\/"))`
(shutil's internal `_basename` makes the same computation). -/
def stripBasename (s : String) : String :=
  pyBasename (rstripSlashes s)

/-- `os.path.join(a, b)` on Windows, for the shapes the program produces:
an empty first component yields the second; a second component starting
with a separator is root-relative and replaces the first; otherwise a `\`
is inserted unless the first component already ends in a separator or a
drive colon. -/
def ntJoin (a b : String) : String :=
  if a = "" then b
  else if b ≠ "" && isSlash (b.toList.headD ' ') then b
  else if isSlash (a.toList.getLastD ' ') || a.toList.getLastD ' ' = ':' then a ++ b
  else a ++ "\\" ++ b

/-- `shutil._destinsrc`: is `dst` the same path as `src` or inside the
directory tree rooted at `src`?  (Modulo trailing separators.) -/
def destInSrc (src dst : String) : Bool :=
  let s := rstripSlashes src
  let d := rstripSlashes dst
  d = s || d.startsWith (s ++ "\\") || d.startsWith (s ++ "/")

deriving instance DecidableEq for Except

/-- The host operating system, as `platform.system()` reports it. -/
inductive OSKind
  | windows
  | linux
  | darwin
deriving DecidableEq, Repr

/-- Python exception classes the engine raises or catches. -/
inductive PyExc
  | fileExists      -- FileExistsError
  | notImplemented  -- NotImplementedError
  | calledProcess   -- subprocess.CalledProcessError (mklink failed)
  | notALink        -- Exception from remove_symlink: path is not a link
  | osError         -- OSError / shutil.Error from a filesystem operation
deriving DecidableEq, Repr

/-- `os.makedirs(p, exist_ok=True)`: an error on the empty path; a no-op
when `p` already resolves to a directory; `FileExistsError` when an entry
occupies `p` but is not a directory (exist_ok only suppresses the error
for directories); otherwise the directory is created.  Creation of
intermediate directories collapses to creating the named entry, paths
being atomic in this model. -/
def os_makedirs (fs : FS) (p : String) : Except PyExc FS :=
  if p = "" then Except.error PyExc.osError
  else if path_isdir fs p then Except.ok fs
  else if path_lexists fs p then Except.error PyExc.fileExists
  else Except.ok (fs_insert fs p Node.dir)

/-- `shutil.move(src, dst)` as documented for CPython: fails when `src`
has no entry; when `dst` is an existing directory the item is moved
*inside* it, at `dst/basename(src)` (same path: renamed onto itself,
a no-op; occupied target: `shutil.Error`); moving a directory into its
own subtree or onto an existing entry fails; otherwise the item is
renamed to `dst`, replacing an existing file there (`os.rename`
overwrite, or the Windows `copy2`-then-`unlink` fallback). -/
def shutil_move (fs : FS) (src dst : String) : Except PyExc FS :=
  match fs_lookup fs src with
  | none => Except.error PyExc.osError
  | some node =>
    if path_isdir fs dst then
      if src = dst then Except.ok fs
      else
        let real := ntJoin dst (stripBasename src)
        if path_exists fs real then Except.error PyExc.osError
        else if node = Node.dir && destInSrc src real then Except.error PyExc.osError
        else Except.ok (fs_insert (fs_remove fs src) real node)
    else if node = Node.dir && destInSrc src dst then Except.error PyExc.osError
    else if node = Node.dir && path_lexists fs dst then Except.error PyExc.osError
    else Except.ok (fs_insert (fs_remove fs src) dst node)

/-- `move_item` (src/main.py:45): compute the target path, ensure the
destination folder exists, move.  An error carries the filesystem as the
raised exception leaves it (`os.makedirs` fails before mutating anything;
a `shutil.move` failure leaves the folder-creation effect in place). -/
def move_item (fs : FS) (src dst_folder : String) :
    Except (PyExc × FS) (String × FS) :=
  let item_name := stripBasename src
  let new_location := ntJoin dst_folder item_name
  match os_makedirs fs dst_folder with
  | Except.error e => Except.error (e, fs)
  | Except.ok fs1 =>
    match shutil_move fs1 src new_location with
    | Except.error e => Except.error (e, fs1)
    | Except.ok fs2 => Except.ok (new_location, fs2)

/-- `create_symlink` (src/main.py:57): platform gate first, then the
`os.path.exists` occupancy check (which follows links, so a dangling link
at `src` slips past it and `mklink` itself then fails), then `mklink /d`
or plain `mklink` according to `os.path.isdir(dst)`. -/
def create_symlink (fs : FS) (src dst : String) (osk : OSKind) : Except PyExc FS :=
  if osk ≠ OSKind.windows then Except.error PyExc.notImplemented
  else if path_exists fs src then Except.error PyExc.fileExists
  else if path_lexists fs src then Except.error PyExc.calledProcess
  else Except.ok (fs_insert fs src (Node.symlink dst (path_isdir fs dst)))

/-- `remove_symlink` (src/main.py:77): a no-op unless `os.path.exists`
holds (following links); then either `os.unlink` of the entry or the
not-a-link error. -/
def remove_symlink (fs : FS) (p : String) : Except PyExc FS :=
  if path_exists fs p then
    if path_islink fs p then Except.ok (fs_remove fs p)
    else Except.error PyExc.notALink
  else Except.ok fs

/-- `validate_paths` (src/main.py:87).  The `messagebox` calls only shape
the GUI; no engine state is touched on either outcome. -/
def validate_paths (fs : FS) (src dst_folder : String) : Bool :=
  if src = "" || !(path_exists fs src) then false
  else if dst_folder = "" || !(path_exists fs dst_folder) then false
  else if path_isdir fs src && !(path_isdir fs dst_folder) then false
  else true

/-- The Validator contract exactly as the spec words it (section 4.1):
reject an empty or non-existent source, an empty or non-existent
destination, and a directory source paired with a non-directory
destination; accept everything else. -/
def validateSpec (fs : FS) (src dst_folder : String) : Bool :=
  !(src = "" || !(path_exists fs src)) &&
  !(dst_folder = "" || !(path_exists fs dst_folder)) &&
  !(path_isdir fs src && !(path_isdir fs dst_folder))

/-- The engine's durable state: the filesystem and the ledger store. -/
structure World where
  fs : FS
  store : Store

/-- `SymlinkGUI.run_symlink_process` (src/main.py:275), the commit
transaction.  Every exception from the three steps is caught by a handler
that only updates labels, so the world it leaves is the partial state at
the raise.  On full success the ledger is re-loaded, the record appended
and the whole list saved; when the loaded value is not a list, Python's
`.append` raises and the generic handler fires with the store untouched.
The boolean is `true` exactly when the success dialog is reached. -/
def run_symlink_process (w : World) (src dst_folder : String) (osk : OSKind) :
    World × Bool :=
  if validate_paths w.fs src dst_folder = false then (w, false)
  else
    match move_item w.fs src dst_folder with
    | Except.error (_, fsx) => ({ w with fs := fsx }, false)
    | Except.ok (new_location, fs1) =>
      match create_symlink fs1 src new_location osk with
      | Except.error _ => ({ w with fs := fs1 }, false)
      | Except.ok fs2 =>
        match load_history w.store with
        | Json.arr xs =>
          ({ fs := fs2,
             store := save_history
               (Json.arr (xs ++ [recordToJson ⟨src, new_location, src⟩])) }, true)
        | _ => ({ w with fs := fs2 }, false)

/-- `HistoryWindow.revert_selected` (src/main.py:134).  `winHistory` is
`self.history`, the snapshot `load_history()` returned when the window
was opened (the selected record `r` is one of its rows).  On success the
*snapshot*, filtered by key, is saved — not a fresh load.  The boolean is
`true` exactly when the success dialog is reached. -/
def revert_selected (w : World) (winHistory : List OpRecord) (r : OpRecord) :
    World × Bool :=
  match remove_symlink w.fs r.symlink_path with
  | Except.error _ => (w, false)
  | Except.ok fs1 =>
    match shutil_move fs1 r.final_dst r.original_src with
    | Except.error _ => ({ w with fs := fs1 }, false)
    | Except.ok fs2 =>
      ({ fs := fs2,
         store := save_history (recordsToJson
           (winHistory.filter (fun x => x.symlink_path != r.symlink_path))) }, true)

-- Concrete state used to settle claim C1 (a revert performed after the
-- history window was opened, once the store has moved on past the
-- window's snapshot).

/-- Filesystem for the C1 scenario: the symlink of record `recA` and the
moved item it points at. -/
def fsC1 : FS := [("a", Node.symlink "dstA" false), ("dstA", Node.file "X")]

/-- The record the C1 scenario reverts. -/
def recA : OpRecord := ⟨"a", "dstA", "a"⟩

/-- A record committed after the history window was opened, present in
the store but not in the window's snapshot. -/
def recB : OpRecord := ⟨"b", "db", "b"⟩

/-- C1 world: the store holds `[recA, recB]`, while the window snapshot
(taken before `recB`'s commit) holds only `[recA]`. -/
def wC1 : World := ⟨fsC1, Store.content (recordsToJson [recA, recB])⟩

-- Lemmas about path resolution and the filesystem primitives.

theorem path_exists_empty (fs : FS) : path_exists fs "" = false := by
  simp [path_exists, resolveNode]

theorem path_exists_of_lookup_file (fs : FS) (p d : String) (hp : p ≠ "")
    (h : fs_lookup fs p = some (Node.file d)) : path_exists fs p = true := by
  simp [path_exists, resolveNode, hp, h]

theorem path_isdir_of_lookup_file (fs : FS) (p d : String)
    (h : fs_lookup fs p = some (Node.file d)) : path_isdir fs p = false := by
  by_cases hp : p = "" <;> simp [path_isdir, resolveNode, hp, h]

theorem path_exists_of_lookup_none (fs : FS) (p : String)
    (h : fs_lookup fs p = none) : path_exists fs p = false := by
  by_cases hp : p = "" <;> simp [path_exists, resolveNode, hp, h]

theorem path_isdir_insert_dir_self (fs : FS) (p : String) (hp : p ≠ "") :
    path_isdir (fs_insert fs p Node.dir) p = true := by
  have hl := fs_lookup_insert_self fs p Node.dir
  simp [path_isdir, resolveNode, hp, hl]

/-- A successful `os.makedirs` either found the directory or created the
entry, and afterwards the path is a directory. -/
theorem os_makedirs_ok (fs g : FS) (p : String)
    (h : os_makedirs fs p = Except.ok g) :
    (g = fs ∨ g = fs_insert fs p Node.dir) ∧ path_isdir g p = true ∧ p ≠ "" := by
  unfold os_makedirs at h
  by_cases hp : p = ""
  · simp [hp] at h
  · rw [if_neg hp] at h
    by_cases hd : path_isdir fs p = true
    · rw [if_pos hd] at h
      injection h with h
      exact ⟨Or.inl h.symm, h ▸ hd, hp⟩
    · rw [if_neg hd] at h
      by_cases hl : path_lexists fs p = true
      · rw [if_pos hl] at h
        exact absurd h (by simp)
      · rw [if_neg hl] at h
        injection h with h
        exact ⟨Or.inr h.symm, h ▸ path_isdir_insert_dir_self fs p hp, hp⟩

/-- Decompose a successful `move_item` into its steps and its returned
path formula. -/
theorem move_item_ok (fs fs' : FS) (src dst loc : String)
    (h : move_item fs src dst = Except.ok (loc, fs')) :
    loc = ntJoin dst (stripBasename src)
    ∧ ∃ fs1, os_makedirs fs dst = Except.ok fs1
        ∧ shutil_move fs1 src (ntJoin dst (stripBasename src)) = Except.ok fs' := by
  cases hmk : os_makedirs fs dst with
  | error e =>
    simp only [move_item, hmk] at h
    exact absurd h (by simp)
  | ok fs1 =>
    cases hsm : shutil_move fs1 src (ntJoin dst (stripBasename src)) with
    | error e =>
      simp only [move_item, hmk, hsm] at h
      exact absurd h (by simp)
    | ok fs2 =>
      simp only [move_item, hmk, hsm] at h
      injection h with h
      injection h with h1 h2
      exact ⟨h1.symm, fs1, rfl, by rw [hsm, h2]⟩

-- Claim theorems.

/-- Claim C9: `validate_paths` returns false exactly when the source is
empty or does not exist, when the destination is empty or does not exist,
or when the source is a directory while the destination is not; in all
other cases it returns true.  Stated as equality with `validateSpec`, the
contract transcribed from the spec's words.  (`validate_paths` is pure in
the model: the `messagebox` calls mutate no engine state.) -/
theorem claim_C9 (fs : FS) (src dst_folder : String) :
    validate_paths fs src dst_folder = validateSpec fs src dst_folder := by
  unfold validate_paths validateSpec
  by_cases h1 : (src = "" || !(path_exists fs src)) = true
  · simp [h1]
  · by_cases h2 : (dst_folder = "" || !(path_exists fs dst_folder)) = true
    · simp [h1, h2]
    · by_cases h3 : (path_isdir fs src && !(path_isdir fs dst_folder)) = true
      · simp [h1, h2, h3]
      · simp [h1, h2, h3]

/-- Claim C5 counterexample: a store holding the valid JSON value `42`
is neither absent nor corrupt, and `load_history` returns it unchanged —
a value that is not a sequence of records (its record decoding fails, and
it is not even a JSON array). -/
theorem claim_C5_counterexample :
    load_history (Store.content (Json.num 42)) = Json.num 42
    ∧ jsonToRecords (Json.num 42) = none :=
  ⟨rfl, rfl⟩

/-- Claim C5 as amended: `load()` never raises, returns the empty
sequence when the store is absent or unreadable/corrupt, and otherwise
returns the parsed JSON content as is — which is the persisted record
sequence whenever the store holds one, but need not be a sequence of
records at all. -/
theorem claim_C5_amended :
    (∀ j, load_history (Store.content j) = j)
    ∧ load_history Store.absent = Json.arr []
    ∧ load_history Store.malformed = Json.arr []
    ∧ (∀ l : List OpRecord,
        jsonToRecords (load_history (save_history (recordsToJson l))) = some l) :=
  ⟨fun _ => rfl, rfl, rfl, fun l => jsonToRecords_recordsToJson l⟩

/-- Claim C6: ledger persistence round-trips — for every sequence of
records, loading right after saving yields the same JSON value, and
decoding it recovers the records field-for-field in insertion order. -/
theorem claim_C6 (l : List OpRecord) :
    load_history (save_history (recordsToJson l)) = recordsToJson l
    ∧ jsonToRecords (load_history (save_history (recordsToJson l))) = some l
    ∧ loadAsRecords (save_history (recordsToJson l)) = l :=
  ⟨rfl, jsonToRecords_recordsToJson l, loadAsRecords_content l⟩

/-- Claim C3 counterexample: a dangling symbolic link.  `os.path.islink`
is true for the entry, yet `remove_symlink` succeeds without removing it,
because the `os.path.exists` guard follows the link to its missing target
and reports the path as non-existent. -/
theorem claim_C3_counterexample :
    path_islink [("L", Node.symlink "T" false)] "L" = true
    ∧ remove_symlink [("L", Node.symlink "T" false)] "L"
        = Except.ok [("L", Node.symlink "T" false)]
    ∧ fs_lookup [("L", Node.symlink "T" false)] "L"
        = some (Node.symlink "T" false) := by
  refine ⟨by decide, by decide, by decide⟩

/-- Claim C3 as amended: `remove_symlink` succeeds as a no-op for every
path that does not exist in the `os.path.exists` sense — which includes
dangling symbolic links, whose entry is left in place; it fails with the
not-a-link error for every existing path that is not a symbolic link; and
for every symbolic link whose target exists it removes the link entry
itself, leaving every other entry (in particular the target) untouched,
with a second call then succeeding as a no-op. -/
theorem claim_C3_amended (fs : FS) (p : String) :
    (path_exists fs p = false → remove_symlink fs p = Except.ok fs)
    ∧ (path_exists fs p = true → path_islink fs p = false →
        remove_symlink fs p = Except.error PyExc.notALink)
    ∧ (path_exists fs p = true → path_islink fs p = true →
        remove_symlink fs p = Except.ok (fs_remove fs p)
        ∧ (∀ q, q ≠ p → fs_lookup (fs_remove fs p) q = fs_lookup fs q)
        ∧ remove_symlink (fs_remove fs p) p = Except.ok (fs_remove fs p)) := by
  refine ⟨?_, ?_, ?_⟩
  · intro h
    simp [remove_symlink, h]
  · intro h1 h2
    simp [remove_symlink, h1, h2]
  · intro h1 h2
    have hrm : remove_symlink fs p = Except.ok (fs_remove fs p) := by
      simp [remove_symlink, h1, h2]
    have hgone : path_exists (fs_remove fs p) p = false :=
      path_exists_of_lookup_none (fs_remove fs p) p (fs_lookup_remove_self fs p)
    refine ⟨hrm, ?_, by simp [remove_symlink, hgone]⟩
    intro q hq
    rw [fs_lookup_remove, if_neg hq]

/-- Claim C3 witness: the three amended cases at concrete states — an
absent path, an existing regular file, and a live symbolic link. -/
theorem claim_C3_witness :
    remove_symlink [("F", Node.file "1"), ("L", Node.symlink "F" false)] "G"
      = Except.ok [("F", Node.file "1"), ("L", Node.symlink "F" false)]
    ∧ remove_symlink [("F", Node.file "1"), ("L", Node.symlink "F" false)] "F"
      = Except.error PyExc.notALink
    ∧ remove_symlink [("F", Node.file "1"), ("L", Node.symlink "F" false)] "L"
      = Except.ok (fs_remove [("F", Node.file "1"), ("L", Node.symlink "F" false)] "L") :=
  ⟨(claim_C3_amended _ "G").1 (by decide),
   (claim_C3_amended _ "F").2.1 (by decide) (by decide),
   ((claim_C3_amended _ "L").2.2 (by decide) (by decide)).1⟩

/-- Claim C8: `create_symlink` rejects non-Windows hosts first (even when
the link path is occupied), then rejects an existing link path with
`FileExistsError`; on success the created link's kind is directory-type
exactly when the target is a directory. -/
theorem claim_C8 (fs : FS) (src dst : String) :
    (∀ osk, osk ≠ OSKind.windows →
        create_symlink fs src dst osk = Except.error PyExc.notImplemented)
    ∧ (path_exists fs src = true →
        create_symlink fs src dst OSKind.windows = Except.error PyExc.fileExists)
    ∧ (∀ osk fs2, create_symlink fs src dst osk = Except.ok fs2 →
        fs2 = fs_insert fs src (Node.symlink dst (path_isdir fs dst))
        ∧ fs_lookup fs2 src = some (Node.symlink dst (path_isdir fs dst))) := by
  refine ⟨?_, ?_, ?_⟩
  · intro osk h
    simp [create_symlink, h]
  · intro h
    simp [create_symlink, h]
  · intro osk fs2 h
    unfold create_symlink at h
    by_cases hw : osk ≠ OSKind.windows
    · rw [if_pos hw] at h
      exact absurd h (by simp)
    · rw [if_neg hw] at h
      by_cases he : path_exists fs src = true
      · rw [if_pos he] at h
        exact absurd h (by simp)
      · rw [if_neg he] at h
        by_cases hl : path_lexists fs src = true
        · rw [if_pos hl] at h
          exact absurd h (by simp)
        · rw [if_neg hl] at h
          injection h with h
          exact ⟨h.symm, h ▸ fs_lookup_insert_self fs src _⟩

/-- Claim C8 witness: the platform gate, the occupied-path error, and a
successful creation whose kind matches the directory target. -/
theorem claim_C8_witness :
    create_symlink [("T", Node.dir)] "L" "T" OSKind.linux
      = Except.error PyExc.notImplemented
    ∧ create_symlink [("T", Node.dir)] "T" "T" OSKind.windows
      = Except.error PyExc.fileExists
    ∧ (([("L", Node.symlink "T" true), ("T", Node.dir)] : FS)
        = fs_insert [("T", Node.dir)] "L"
            (Node.symlink "T" (path_isdir [("T", Node.dir)] "T"))
      ∧ fs_lookup ([("L", Node.symlink "T" true), ("T", Node.dir)] : FS) "L"
        = some (Node.symlink "T" (path_isdir [("T", Node.dir)] "T"))) :=
  ⟨(claim_C8 _ "L" "T").1 OSKind.linux (by decide),
   (claim_C8 _ "T" "T").2.1 (by decide),
   (claim_C8 _ "L" "T").2.2 OSKind.windows _ (by decide)⟩

/-- Claim C10: a non-directory source paired with a destination that is
an existing regular file passes validation (the type-consistency check
only fires for directory sources); the mismatch is rejected later, when
`move_item`'s `os.makedirs` raises `FileExistsError` while ensuring the
destination is a directory, before anything has been mutated — the
source is left unmoved. -/
theorem claim_C10 (fs : FS) (src dst_folder d : String)
    (hs : path_exists fs src = true)
    (hsd : path_isdir fs src = false)
    (hdl : fs_lookup fs dst_folder = some (Node.file d))
    (hdne : dst_folder ≠ "") :
    validate_paths fs src dst_folder = true
    ∧ move_item fs src dst_folder = Except.error (PyExc.fileExists, fs) := by
  have hsne : src ≠ "" := by
    intro h
    rw [h, path_exists_empty] at hs
    exact absurd hs (by simp)
  have hdex : path_exists fs dst_folder = true :=
    path_exists_of_lookup_file fs dst_folder d hdne hdl
  have hdd : path_isdir fs dst_folder = false :=
    path_isdir_of_lookup_file fs dst_folder d hdl
  have hdlex : path_lexists fs dst_folder = true := by
    simp [path_lexists, hdne, hdl]
  constructor
  · simp [validate_paths, hsne, hs, hdne, hdex, hsd]
  · have hmk : os_makedirs fs dst_folder = Except.error PyExc.fileExists := by
      simp [os_makedirs, hdne, hdd, hdlex]
    simp [move_item, hmk]

/-- Claim C10 witness: a file source and a file destination. -/
theorem claim_C10_witness :
    validate_paths [("s", Node.file "1"), ("d", Node.file "2")] "s" "d" = true
    ∧ move_item [("s", Node.file "1"), ("d", Node.file "2")] "s" "d"
        = Except.error (PyExc.fileExists, [("s", Node.file "1"), ("d", Node.file "2")]) :=
  claim_C10 _ "s" "d" "2" (by decide) (by decide) (by decide) (by decide)

/-- Claim C2: commit is atomic with respect to the ledger.  A validation
failure, a `move_item` error, or a `create_symlink` error each leave the
persisted store exactly as it was (no record appended); and whenever the
commit reports success, validation, move and link creation have all
succeeded. -/
theorem claim_C2 (w : World) (src dst_folder : String) (osk : OSKind) :
    (validate_paths w.fs src dst_folder = false →
        (run_symlink_process w src dst_folder osk).1.store = w.store)
    ∧ (∀ e fsx, move_item w.fs src dst_folder = Except.error (e, fsx) →
        (run_symlink_process w src dst_folder osk).1.store = w.store)
    ∧ (∀ loc fs1 e, move_item w.fs src dst_folder = Except.ok (loc, fs1) →
        create_symlink fs1 src loc osk = Except.error e →
        (run_symlink_process w src dst_folder osk).1.store = w.store)
    ∧ ((run_symlink_process w src dst_folder osk).2 = true →
        validate_paths w.fs src dst_folder = true
        ∧ ∃ loc fs1 fs2, move_item w.fs src dst_folder = Except.ok (loc, fs1)
            ∧ create_symlink fs1 src loc osk = Except.ok fs2) := by
  by_cases hv : validate_paths w.fs src dst_folder = false
  · refine ⟨fun _ => ?_, fun e fsx _ => ?_, fun loc fs1 e _ _ => ?_, fun hrun => ?_⟩
    · simp [run_symlink_process, hv]
    · simp [run_symlink_process, hv]
    · simp [run_symlink_process, hv]
    · simp [run_symlink_process, hv] at hrun
  · have hv2 : validate_paths w.fs src dst_folder = true := by
      cases h : validate_paths w.fs src dst_folder
      · exact absurd h hv
      · rfl
    cases hmv : move_item w.fs src dst_folder with
    | error p =>
      obtain ⟨e, fsx⟩ := p
      refine ⟨fun h => absurd h (by simp [hv2]), fun e2 fsx2 _ => ?_,
              fun loc fs1 e2 hok _ => absurd hok (by simp), fun hrun => ?_⟩
      · simp [run_symlink_process, hv2, hmv]
      · simp [run_symlink_process, hv2, hmv] at hrun
    | ok p =>
      obtain ⟨loc, fs1⟩ := p
      cases hcs : create_symlink fs1 src loc osk with
      | error e =>
        refine ⟨fun h => absurd h (by simp [hv2]),
                fun e2 fsx2 herr => absurd herr (by simp),
                fun loc2 fs12 e2 _ _ => ?_, fun hrun => ?_⟩
        · simp [run_symlink_process, hv2, hmv, hcs]
        · simp [run_symlink_process, hv2, hmv, hcs] at hrun
      | ok fs2 =>
        refine ⟨fun h => absurd h (by simp [hv2]),
                fun e2 fsx2 herr => absurd herr (by simp),
                fun loc2 fs12 e2 hok herr2 => ?_,
                fun _ => ⟨hv2, loc, fs1, fs2, rfl, hcs⟩⟩
        injection hok with hok
        rw [Prod.mk.injEq] at hok
        obtain ⟨hl2, hf2⟩ := hok
        subst hl2
        subst hf2
        rw [hcs] at herr2
        exact absurd herr2 (by simp)

/-- Claim C2 witness: a commit that fails validation (absent source)
leaves the absent store untouched. -/
theorem claim_C2_witness :
    (run_symlink_process ⟨[], Store.absent⟩ "s" "d" OSKind.windows).1.store
      = Store.absent :=
  (claim_C2 ⟨[], Store.absent⟩ "s" "d" OSKind.windows).1 (by decide)

/-- Claim C4: every successful commit appends exactly one record at the
end of the loaded ledger, of the form
`{original_src: src, final_dst: newLocation, symlink_path: src}` — so
`symlink_path = original_src` holds for every record the engine writes,
and `final_dst` is the computed new location. -/
theorem claim_C4 (w : World) (src dst_folder : String) (osk : OSKind)
    (xs : List Json)
    (hload : load_history w.store = Json.arr xs)
    (hsucc : (run_symlink_process w src dst_folder osk).2 = true) :
    ∃ r : OpRecord,
      (run_symlink_process w src dst_folder osk).1.store
          = save_history (Json.arr (xs ++ [recordToJson r]))
      ∧ r.original_src = src
      ∧ r.symlink_path = src
      ∧ r.symlink_path = r.original_src
      ∧ r.final_dst = ntJoin dst_folder (stripBasename src) := by
  by_cases hv : validate_paths w.fs src dst_folder = false
  · simp [run_symlink_process, hv] at hsucc
  · have hv2 : validate_paths w.fs src dst_folder = true := by
      cases h : validate_paths w.fs src dst_folder
      · exact absurd h hv
      · rfl
    cases hmv : move_item w.fs src dst_folder with
    | error p =>
      obtain ⟨e, fsx⟩ := p
      simp [run_symlink_process, hv2, hmv] at hsucc
    | ok p =>
      obtain ⟨loc, fs1⟩ := p
      cases hcs : create_symlink fs1 src loc osk with
      | error e =>
        simp [run_symlink_process, hv2, hmv, hcs] at hsucc
      | ok fs2 =>
        have hloc := (move_item_ok _ _ _ _ _ hmv).1
        refine ⟨⟨src, loc, src⟩, ?_, rfl, rfl, rfl, hloc⟩
        simp [run_symlink_process, hv2, hmv, hcs, hload, save_history]

/-- Claim C4 witness: a concrete successful commit of file `f` into
folder `D` starting from an empty ledger. -/
theorem claim_C4_witness :
    ∃ r : OpRecord,
      (run_symlink_process
          ⟨[("f", Node.file "1"), ("D", Node.dir)], Store.content (Json.arr [])⟩
          "f" "D" OSKind.windows).1.store
        = save_history (Json.arr ([] ++ [recordToJson r]))
      ∧ r.original_src = "f"
      ∧ r.symlink_path = "f"
      ∧ r.symlink_path = r.original_src
      ∧ r.final_dst = ntJoin "D" (stripBasename "f") :=
  claim_C4 ⟨[("f", Node.file "1"), ("D", Node.dir)], Store.content (Json.arr [])⟩
    "f" "D" OSKind.windows [] rfl (by decide)

/-- Claim C7 counterexample, two successful `move_item` runs violating
the claim's postcondition.  First: moving file `f` into `D` when `D\f`
is already a directory — `shutil.move` relocates the item *inside* that
directory (to `D\f\f`), so the moved item is not at the returned
`newLocation`, which still holds the old directory.  Second: moving
`D\f` into its own parent `D` — `newLocation` equals `src`, the move
renames the file onto itself, and the item is still present at `src`. -/
theorem claim_C7_counterexample :
    (move_item [("f", Node.file "a"), ("D", Node.dir), ("D\\f", Node.dir)] "f" "D"
        = Except.ok ("D\\f",
            [("D\\f\\f", Node.file "a"), ("D", Node.dir), ("D\\f", Node.dir)])
      ∧ fs_lookup [("D\\f\\f", Node.file "a"), ("D", Node.dir), ("D\\f", Node.dir)]
          "D\\f" = some Node.dir
      ∧ fs_lookup [("D\\f\\f", Node.file "a"), ("D", Node.dir), ("D\\f", Node.dir)]
          "D\\f\\f" = some (Node.file "a"))
    ∧ (move_item [("D", Node.dir), ("D\\f", Node.file "a")] "D\\f" "D"
        = Except.ok ("D\\f", [("D\\f", Node.file "a"), ("D", Node.dir)])
      ∧ fs_lookup [("D\\f", Node.file "a"), ("D", Node.dir)] "D\\f"
          = some (Node.file "a")) := by
  refine ⟨⟨by decide, by decide, by decide⟩, by decide, by decide⟩

/-- Claim C7 as amended: provided the computed `newLocation` is neither
an existing directory (whether or not the destination folder had to be
created first) nor `src` itself, a successful `move_item` returns
`newLocation = dstFolder` joined with the basename of `src` after
stripping trailing separators, the `os.makedirs` step has ensured
`dstFolder` is a directory, and the item that was at `src` is no longer
there and now sits at `newLocation`. -/
theorem claim_C7_amended (fs fs' : FS) (src dst_folder loc : String)
    (hmv : move_item fs src dst_folder = Except.ok (loc, fs'))
    (hnd1 : path_isdir fs (ntJoin dst_folder (stripBasename src)) = false)
    (hnd2 : path_isdir (fs_insert fs dst_folder Node.dir)
              (ntJoin dst_folder (stripBasename src)) = false)
    (hne : ntJoin dst_folder (stripBasename src) ≠ src) :
    loc = ntJoin dst_folder (stripBasename src)
    ∧ (∃ fs1, os_makedirs fs dst_folder = Except.ok fs1
        ∧ path_isdir fs1 dst_folder = true
        ∧ ∃ node, fs_lookup fs1 src = some node
            ∧ fs' = fs_insert (fs_remove fs1 src) loc node
            ∧ fs_lookup fs' loc = some node)
    ∧ fs_lookup fs' src = none := by
  obtain ⟨hloc, fs1, hmk, hsm⟩ := move_item_ok fs fs' src dst_folder loc hmv
  subst hloc
  obtain ⟨hcases, hdir1, -⟩ := os_makedirs_ok fs fs1 dst_folder hmk
  have hdirloc : path_isdir fs1 (ntJoin dst_folder (stripBasename src)) = false := by
    cases hcases with
    | inl h => rw [h]; exact hnd1
    | inr h => rw [h]; exact hnd2
  cases hlk : fs_lookup fs1 src with
  | none =>
    simp only [shutil_move, hlk] at hsm
    exact absurd hsm (by simp)
  | some node =>
    simp only [shutil_move, hlk] at hsm
    rw [if_neg (by simp [hdirloc])] at hsm
    by_cases hg1 : (decide (node = Node.dir)
        && destInSrc src (ntJoin dst_folder (stripBasename src))) = true
    · rw [if_pos hg1] at hsm
      exact absurd hsm (by simp)
    · rw [if_neg hg1] at hsm
      by_cases hg2 : (decide (node = Node.dir)
          && path_lexists fs1 (ntJoin dst_folder (stripBasename src))) = true
      · rw [if_pos hg2] at hsm
        exact absurd hsm (by simp)
      · rw [if_neg hg2] at hsm
        injection hsm with hsm
        have hsrcne : ¬ src = ntJoin dst_folder (stripBasename src) :=
          fun h => hne h.symm
        refine ⟨rfl, ⟨fs1, hmk, hdir1, node, hlk, hsm.symm, ?_⟩, ?_⟩
        · rw [← hsm]
          exact fs_lookup_insert_self _ _ _
        · rw [← hsm, fs_lookup_insert, if_neg hsrcne, fs_lookup_remove_self]

/-- Claim C7 witness: moving file `f` into an absent folder `D` — the
folder is created, the file ends up at `D\f` and is gone from `f`. -/
theorem claim_C7_witness :
    "D\\f" = ntJoin "D" (stripBasename "f")
    ∧ (∃ fs1, os_makedirs [("f", Node.file "a")] "D" = Except.ok fs1
        ∧ path_isdir fs1 "D" = true
        ∧ ∃ node, fs_lookup fs1 "f" = some node
            ∧ ([("D\\f", Node.file "a"), ("D", Node.dir)] : FS)
                = fs_insert (fs_remove fs1 "f") "D\\f" node
            ∧ fs_lookup ([("D\\f", Node.file "a"), ("D", Node.dir)] : FS) "D\\f"
                = some node)
    ∧ fs_lookup ([("D\\f", Node.file "a"), ("D", Node.dir)] : FS) "f" = none :=
  claim_C7_amended [("f", Node.file "a")] [("D\\f", Node.file "a"), ("D", Node.dir)]
    "f" "D" "D\\f" (by decide) (by decide) (by decide) (by decide)

/-- Claim C1 counterexample: the history window was opened when the
ledger held only `recA`; a commit then appended `recB` to the store.
Reverting `recA` succeeds, but persists the filtered *window snapshot*
(the empty list) instead of the freshly loaded ledger filtered by key
(which would be `[recB]`) — the interleaved commit's record is lost. -/
theorem claim_C1_counterexample :
    (revert_selected wC1 [recA] recA).2 = true
    ∧ loadAsRecords (revert_selected wC1 [recA] recA).1.store = []
    ∧ (loadAsRecords wC1.store).filter
        (fun x => x.symlink_path != recA.symlink_path) = [recB]
    ∧ ([] : List OpRecord) ≠ [recB] := by
  refine ⟨by decide, by decide, by decide, by decide⟩

/-- Claim C1 as amended: a successful revert persists the *window's
cached snapshot* (`self.history`, loaded when the history window was
opened) with every record matching the reverted key filtered out.  This
coincides with the claim's fresh-load `removeByKey` exactly when the
store still holds the snapshot — i.e. when no other operation has
re-written the ledger since the window was opened. -/
theorem claim_C1_amended (w : World) (cache : List OpRecord) (r : OpRecord)
    (hsucc : (revert_selected w cache r).2 = true) :
    (revert_selected w cache r).1.store
        = save_history (recordsToJson
            (cache.filter (fun x => x.symlink_path != r.symlink_path)))
    ∧ (w.store = Store.content (recordsToJson cache) →
        (revert_selected w cache r).1.store
          = save_history (recordsToJson
              ((loadAsRecords w.store).filter
                (fun x => x.symlink_path != r.symlink_path)))) := by
  cases hrm : remove_symlink w.fs r.symlink_path with
  | error e =>
    simp [revert_selected, hrm] at hsucc
  | ok fs1 =>
    cases hsm : shutil_move fs1 r.final_dst r.original_src with
    | error e =>
      simp [revert_selected, hrm, hsm] at hsucc
    | ok fs2 =>
      constructor
      · simp [revert_selected, hrm, hsm]
      · intro hst
        rw [hst, loadAsRecords_content]
        simp [revert_selected, hrm, hsm]

/-- Claim C1 witness: a successful revert in a world whose store still
matches the window snapshot — there the snapshot filter and the
fresh-load filter agree. -/
theorem claim_C1_witness :
    (revert_selected ⟨fsC1, Store.content (recordsToJson [recA])⟩ [recA] recA).1.store
        = save_history (recordsToJson
            (([recA]).filter (fun x => x.symlink_path != recA.symlink_path)))
    ∧ ((⟨fsC1, Store.content (recordsToJson [recA])⟩ : World).store
          = Store.content (recordsToJson [recA]) →
        (revert_selected ⟨fsC1, Store.content (recordsToJson [recA])⟩ [recA] recA).1.store
          = save_history (recordsToJson
              ((loadAsRecords (⟨fsC1, Store.content (recordsToJson [recA])⟩ : World).store).filter
                (fun x => x.symlink_path != recA.symlink_path)))) :=
  claim_C1_amended ⟨fsC1, Store.content (recordsToJson [recA])⟩ [recA] recA (by decide)
